import Mathlib

/-!
Shallow embedding of the pyartifactory client library
(`pyartifactory/objects.py`): the CRUD resource clients (users, groups,
permissions, repositories), the artifact client, the security client's
token operations, and the AQL query compiler `create_aql_query`.

The HTTP transport is external to the library; it is modelled as an
oracle (`Server`) mapping the index of the call, the HTTP method and the
route to a `Response`.  Each client operation is embedded as a pure
function from the oracle (and a starting call index) to its
result — `Except Err α`, mirroring Python exceptions — paired with the
list of HTTP requests it issued, in order.
-/

namespace PyArtifactory

/-- HTTP methods used by the client. -/
inductive Method
  | get
  | post
  | put
  | delete
deriving DecidableEq, Repr

/-- A request body: `json=` payloads, `data=` form payloads, and `data=` raw
payloads (file contents, AQL query text) are distinguished the way the
`requests` library distinguishes them. -/
inductive Body
  | jsonBody (fields : List (String × String))
  | formBody (fields : List (String × String))
  | rawBody (content : String)
deriving DecidableEq, Repr

/-- One HTTP request as issued by `_generic_http_method_request`:
method, API route, optional body, optional query parameters. -/
structure Request where
  method : Method
  route : String
  body : Option Body
  params : List (String × String)
deriving DecidableEq, Repr

/-- An HTTP response: numeric status code and (for our purposes) a flat
JSON object body.  Response bodies only matter insofar as they are parsed
into resource records; parsing is the external models' concern. -/
structure Response where
  status : Nat
  body : List (String × String)
deriving DecidableEq, Repr

/-- `requests.Response.raise_for_status` raises exactly for 4xx and 5xx. -/
def statusIsError (s : Nat) : Bool := 400 ≤ s && s < 600

/-- `requests.Response.ok`: true unless `raise_for_status` would raise. -/
def Response.ok (r : Response) : Bool := !statusIsError r.status

/-- The transport oracle: the response the server gives to the `k`-th HTTP
call of the scenario, for a given method and route.  Indexing by the call
counter lets the server answer differently over time (e.g. a resource
exists only after it has been created). -/
def Server : Type := Nat → Method → String → Response

/-- `requests.exceptions.HTTPError`, carrying the response status. -/
structure HTTPError where
  status : Nat
deriving DecidableEq, Repr

/-- `_generic_http_method_request`: issue one request; when
`raise_for_status` is requested (the default) a 4xx/5xx status raises
`HTTPError`.  The request is recorded in the trace whether or not it
raised. -/
def genericHttpMethodRequest (srv : Server) (k : Nat) (m : Method)
    (route : String) (raiseFS : Bool) (body : Option Body)
    (params : List (String × String)) :
    Except HTTPError Response × List Request :=
  let resp := srv k m route
  ((if raiseFS && statusIsError resp.status then Except.error ⟨resp.status⟩
    else Except.ok resp),
   [⟨m, route, body, params⟩])

/-- `self._get(route, params=...)` (raise_for_status on). -/
def httpGet (srv : Server) (k : Nat) (route : String)
    (params : List (String × String)) :
    Except HTTPError Response × List Request :=
  genericHttpMethodRequest srv k Method.get route true none params

/-- `self._post(route, ...)` with an explicit raise_for_status flag. -/
def httpPost (srv : Server) (k : Nat) (route : String) (body : Option Body)
    (raiseFS : Bool) : Except HTTPError Response × List Request :=
  genericHttpMethodRequest srv k Method.post route raiseFS body []

/-- `self._put(route, ...)` (raise_for_status on). -/
def httpPut (srv : Server) (k : Nat) (route : String) (body : Option Body) :
    Except HTTPError Response × List Request :=
  genericHttpMethodRequest srv k Method.put route true body []

/-- `self._delete(route)` (raise_for_status on). -/
def httpDelete (srv : Server) (k : Nat) (route : String) :
    Except HTTPError Response × List Request :=
  genericHttpMethodRequest srv k Method.delete route true none []

/-- The exception hierarchy of `pyartifactory/exception.py`, flattened.
`artifactoryEx` is `ArtifactoryException` raised `from` an `HTTPError`,
so it carries the wrapped status; `httpErr` is an uncaught raw
`requests.exceptions.HTTPError`. -/
inductive Err
  | userNotFound (msg : String)
  | userAlreadyExists (msg : String)
  | groupNotFound (msg : String)
  | groupAlreadyExists (msg : String)
  | permissionNotFound (msg : String)
  | permissionAlreadyExists (msg : String)
  | repositoryNotFound (msg : String)
  | repositoryAlreadyExists (msg : String)
  | artifactNotFound (msg : String)
  | propertyNotFound (msg : String)
  | artifactoryEx (wrappedStatus : Nat)
  | invalidTokenData (msg : Option String)
  | aqlEx (msg : String)
  | httpErr (status : Nat)
deriving DecidableEq, Repr

/-- Key update with Python `dict` assignment semantics: replace the value
at `key` if present, otherwise append the pair. -/
def setKey (m : List (String × String)) (key v : String) :
    List (String × String) :=
  if m.any (fun kv => kv.1 = key) then
    m.map (fun kv => if kv.1 = key then (key, v) else kv)
  else m ++ [(key, v)]

/-- Modelled from the spec: the resource models live in the external
`pyartifactory.models` module (absent from the excerpt; the spec treats
them as "typed records ... with serialize/deserialize contracts").  A
record is its identifying `name` plus the rest of its serialized fields;
pydantic's `.dict()` returns the field mapping and `.dict(exclude=S)`
returns it without the keys in `S`. -/
structure User where
  name : String
  fields : List (String × String)
deriving DecidableEq, Repr

/-- pydantic `.dict()` on a `User`. -/
def User.dict (u : User) : List (String × String) :=
  ("name", u.name) :: u.fields

/-- pydantic `.dict(exclude=keys)` on a `User`. -/
def User.dictExclude (u : User) (keys : List String) :
    List (String × String) :=
  (u.dict).filter (fun kv => !(keys.contains kv.1))

/-- Modelled from the spec: `NewUser` — a `User` record that additionally
carries the secret password handed to `create`. -/
structure NewUser where
  name : String
  password : String
  fields : List (String × String)
deriving DecidableEq, Repr

/-- pydantic `.dict()` on a `NewUser`; the `SecretStr` password serializes
masked, which `create` immediately overwrites with the secret value. -/
def NewUser.dict (u : NewUser) : List (String × String) :=
  ("name", u.name) :: ("password", "**********") :: u.fields

/-- Modelled from the spec: the `Group` record. -/
structure Group where
  name : String
  fields : List (String × String)
deriving DecidableEq, Repr

/-- pydantic `.dict()` on a `Group`. -/
def Group.dict (g : Group) : List (String × String) :=
  ("name", g.name) :: g.fields

/-- Modelled from the spec: the `Permission` record. -/
structure Permission where
  name : String
  fields : List (String × String)
deriving DecidableEq, Repr

/-- pydantic `.dict()` on a `Permission`. -/
def Permission.dict (p : Permission) : List (String × String) :=
  ("name", p.name) :: p.fields

/-- Modelled from the spec: a repository record (local, virtual or
remote), identified by its `key`. -/
structure Repository where
  key : String
  fields : List (String × String)
deriving DecidableEq, Repr

/-- pydantic `.dict()` on a repository record. -/
def Repository.dict (r : Repository) : List (String × String) :=
  ("key", r.key) :: r.fields

/-- A deserialized response record: deserialization is the external
models' concern, so the embedding keeps the raw body. -/
structure ParsedResponse where
  raw : List (String × String)
deriving DecidableEq, Repr

namespace ArtifactoryUser

/-- `ArtifactoryUser._uri`. -/
def uri : String := "security/users"

/-- `ArtifactoryUser.get`: read `api/security/users/{name}`; convert
HTTP 404 or 400 into `UserNotFoundException`, any other `HTTPError` into
`ArtifactoryException from error`. -/
def get (srv : Server) (k : Nat) (name : String) :
    Except Err ParsedResponse × List Request :=
  let r := httpGet srv k ("api/" ++ uri ++ "/" ++ name) []
  (match r.1 with
   | Except.ok resp => Except.ok ⟨resp.body⟩
   | Except.error e =>
     if e.status = 404 ∨ e.status = 400 then
       Except.error (Err.userNotFound (name ++ " does not exist"))
     else Except.error (Err.artifactoryEx e.status),
   r.2)

/-- `ArtifactoryUser.create`: existence check first; if the user is
found, raise `UserAlreadyExistsException`; if the check failed with
`UserNotFoundException`, PUT the serialized record (password replaced by
its secret value) and re-fetch. -/
def create (srv : Server) (k : Nat) (user : NewUser) :
    Except Err ParsedResponse × List Request :=
  let username := user.name
  let r := get srv k username
  match r.1 with
  | Except.ok _ =>
    (Except.error
       (Err.userAlreadyExists ("User " ++ username ++ " already exists")),
     r.2)
  | Except.error (Err.userNotFound _) =>
    let data := setKey (user.dict) "password" user.password
    let p := httpPut srv (k + 1) ("api/" ++ uri ++ "/" ++ username)
               (some (Body.jsonBody data))
    match p.1 with
    | Except.error e => (Except.error (Err.httpErr e.status), r.2 ++ p.2)
    | Except.ok _ =>
      let g2 := get srv (k + 2) username
      (g2.1, r.2 ++ p.2 ++ g2.2)
  | Except.error e => (Except.error e, r.2)

/-- `ArtifactoryUser.update`: get first (propagating its failure), then
POST the full `.dict()`, then POST `.dict(exclude={"lastLoggedIn",
"realm"})`, then re-fetch and return the canonical record. -/
def update (srv : Server) (k : Nat) (user : User) :
    Except Err ParsedResponse × List Request :=
  let username := user.name
  let r := get srv k username
  match r.1 with
  | Except.error e => (Except.error e, r.2)
  | Except.ok _ =>
    let p1 := httpPost srv (k + 1) ("api/" ++ uri ++ "/" ++ username)
                (some (Body.jsonBody user.dict)) true
    match p1.1 with
    | Except.error e => (Except.error (Err.httpErr e.status), r.2 ++ p1.2)
    | Except.ok _ =>
      let p2 := httpPost srv (k + 2) ("api/" ++ uri ++ "/" ++ username)
                  (some (Body.jsonBody
                    (user.dictExclude ["lastLoggedIn", "realm"]))) true
      match p2.1 with
      | Except.error e =>
        (Except.error (Err.httpErr e.status), r.2 ++ p1.2 ++ p2.2)
      | Except.ok _ =>
        let g2 := get srv (k + 3) username
        (g2.1, r.2 ++ p1.2 ++ p2.2 ++ g2.2)

/-- `ArtifactoryUser.delete`: get first (propagating its failure), then
DELETE. -/
def delete (srv : Server) (k : Nat) (name : String) :
    Except Err Unit × List Request :=
  let r := get srv k name
  match r.1 with
  | Except.error e => (Except.error e, r.2)
  | Except.ok _ =>
    let d := httpDelete srv (k + 1) ("api/" ++ uri ++ "/" ++ name)
    match d.1 with
    | Except.error e => (Except.error (Err.httpErr e.status), r.2 ++ d.2)
    | Except.ok _ => (Except.ok (), r.2 ++ d.2)

end ArtifactoryUser

namespace ArtifactoryGroup

/-- `ArtifactoryGroup._uri`. -/
def uri : String := "security/groups"

/-- `ArtifactoryGroup.get`: read `api/security/groups/{name}` with
`params={"includeUsers": True}`; convert 404/400 into
`GroupNotFoundException`, anything else into `ArtifactoryException`. -/
def get (srv : Server) (k : Nat) (name : String) :
    Except Err ParsedResponse × List Request :=
  let r := httpGet srv k ("api/" ++ uri ++ "/" ++ name)
             [("includeUsers", "True")]
  (match r.1 with
   | Except.ok resp => Except.ok ⟨resp.body⟩
   | Except.error e =>
     if e.status = 404 ∨ e.status = 400 then
       Except.error (Err.groupNotFound ("Group " ++ name ++ " does not exist"))
     else Except.error (Err.artifactoryEx e.status),
   r.2)

/-- `ArtifactoryGroup.create`: existence check first; if found, raise
`GroupAlreadyExistsException`; on `GroupNotFoundException`, PUT the
serialized group and re-fetch. -/
def create (srv : Server) (k : Nat) (group : Group) :
    Except Err ParsedResponse × List Request :=
  let groupName := group.name
  let r := get srv k groupName
  match r.1 with
  | Except.ok _ =>
    (Except.error
       (Err.groupAlreadyExists ("Group " ++ groupName ++ " already exists")),
     r.2)
  | Except.error (Err.groupNotFound _) =>
    let p := httpPut srv (k + 1) ("api/" ++ uri ++ "/" ++ groupName)
               (some (Body.jsonBody group.dict))
    match p.1 with
    | Except.error e => (Except.error (Err.httpErr e.status), r.2 ++ p.2)
    | Except.ok _ =>
      let g2 := get srv (k + 2) groupName
      (g2.1, r.2 ++ p.2 ++ g2.2)
  | Except.error e => (Except.error e, r.2)

/-- `ArtifactoryGroup.update`: get first (propagating its failure), then
POST the serialized group, then re-fetch. -/
def update (srv : Server) (k : Nat) (group : Group) :
    Except Err ParsedResponse × List Request :=
  let groupName := group.name
  let r := get srv k groupName
  match r.1 with
  | Except.error e => (Except.error e, r.2)
  | Except.ok _ =>
    let p := httpPost srv (k + 1) ("api/" ++ uri ++ "/" ++ groupName)
               (some (Body.jsonBody group.dict)) true
    match p.1 with
    | Except.error e => (Except.error (Err.httpErr e.status), r.2 ++ p.2)
    | Except.ok _ =>
      let g2 := get srv (k + 2) groupName
      (g2.1, r.2 ++ p.2 ++ g2.2)

/-- `ArtifactoryGroup.delete`: get first (propagating its failure), then
DELETE. -/
def delete (srv : Server) (k : Nat) (name : String) :
    Except Err Unit × List Request :=
  let r := get srv k name
  match r.1 with
  | Except.error e => (Except.error e, r.2)
  | Except.ok _ =>
    let d := httpDelete srv (k + 1) ("api/" ++ uri ++ "/" ++ name)
    match d.1 with
    | Except.error e => (Except.error (Err.httpErr e.status), r.2 ++ d.2)
    | Except.ok _ => (Except.ok (), r.2 ++ d.2)

end ArtifactoryGroup

namespace ArtifactoryRepository

/-- `ArtifactoryRepository._uri`. -/
def uri : String := "repositories"

/-- `ArtifactoryRepository.get_repo`: read `api/repositories/{key}`;
convert 404/400 into `RepositoryNotFoundException` (whose message starts
with a space, as in the source), anything else into
`ArtifactoryException`. -/
def getRepo (srv : Server) (k : Nat) (repoName : String) :
    Except Err ParsedResponse × List Request :=
  let r := httpGet srv k ("api/" ++ uri ++ "/" ++ repoName) []
  (match r.1 with
   | Except.ok resp => Except.ok ⟨resp.body⟩
   | Except.error e =>
     if e.status = 404 ∨ e.status = 400 then
       Except.error
         (Err.repositoryNotFound
           (" Repository " ++ repoName ++ " does not exist"))
     else Except.error (Err.artifactoryEx e.status),
   r.2)

/-- `ArtifactoryRepository.create_repo`: existence check first; if
found, raise `RepositoryAlreadyExistsException`; on
`RepositoryNotFoundException`, PUT the serialized repository and
re-fetch. -/
def createRepo (srv : Server) (k : Nat) (repo : Repository) :
    Except Err ParsedResponse × List Request :=
  let repoName := repo.key
  let r := getRepo srv k repoName
  match r.1 with
  | Except.ok _ =>
    (Except.error
       (Err.repositoryAlreadyExists
         ("Repository " ++ repoName ++ " already exists")),
     r.2)
  | Except.error (Err.repositoryNotFound _) =>
    let p := httpPut srv (k + 1) ("api/" ++ uri ++ "/" ++ repoName)
               (some (Body.jsonBody repo.dict))
    match p.1 with
    | Except.error e => (Except.error (Err.httpErr e.status), r.2 ++ p.2)
    | Except.ok _ =>
      let g2 := getRepo srv (k + 2) repoName
      (g2.1, r.2 ++ p.2 ++ g2.2)
  | Except.error e => (Except.error e, r.2)

/-- `ArtifactoryRepository.update_repo`: get first (propagating its
failure), then POST the serialized repository, then re-fetch. -/
def updateRepo (srv : Server) (k : Nat) (repo : Repository) :
    Except Err ParsedResponse × List Request :=
  let repoName := repo.key
  let r := getRepo srv k repoName
  match r.1 with
  | Except.error e => (Except.error e, r.2)
  | Except.ok _ =>
    let p := httpPost srv (k + 1) ("api/" ++ uri ++ "/" ++ repoName)
               (some (Body.jsonBody repo.dict)) true
    match p.1 with
    | Except.error e => (Except.error (Err.httpErr e.status), r.2 ++ p.2)
    | Except.ok _ =>
      let g2 := getRepo srv (k + 2) repoName
      (g2.1, r.2 ++ p.2 ++ g2.2)

end ArtifactoryRepository

namespace ArtifactoryPermission

/-- `ArtifactoryPermission._uri`. -/
def uri : String := "security/permissions"

/-- `ArtifactoryPermission.get`: read `api/security/permissions/{name}`;
convert 404/400 into `PermissionNotFoundException`, anything else into
`ArtifactoryException`. -/
def get (srv : Server) (k : Nat) (permissionName : String) :
    Except Err ParsedResponse × List Request :=
  let r := httpGet srv k ("api/" ++ uri ++ "/" ++ permissionName) []
  (match r.1 with
   | Except.ok resp => Except.ok ⟨resp.body⟩
   | Except.error e =>
     if e.status = 404 ∨ e.status = 400 then
       Except.error
         (Err.permissionNotFound
           ("Permission " ++ permissionName ++ " does not exist"))
     else Except.error (Err.artifactoryEx e.status),
   r.2)

/-- `ArtifactoryPermission.create`: existence check first; if found,
raise `PermissionAlreadyExistsException`; on
`PermissionNotFoundException`, PUT the serialized permission and
re-fetch. -/
def create (srv : Server) (k : Nat) (permission : Permission) :
    Except Err ParsedResponse × List Request :=
  let permissionName := permission.name
  let r := get srv k permissionName
  match r.1 with
  | Except.ok _ =>
    (Except.error
       (Err.permissionAlreadyExists
         ("Permission " ++ permissionName ++ " already exists")),
     r.2)
  | Except.error (Err.permissionNotFound _) =>
    let p := httpPut srv (k + 1) ("api/" ++ uri ++ "/" ++ permissionName)
               (some (Body.jsonBody permission.dict))
    match p.1 with
    | Except.error e => (Except.error (Err.httpErr e.status), r.2 ++ p.2)
    | Except.ok _ =>
      let g2 := get srv (k + 2) permissionName
      (g2.1, r.2 ++ p.2 ++ g2.2)
  | Except.error e => (Except.error e, r.2)

/-- `ArtifactoryPermission.update`: unlike the other clients, there is
no existence check — the method PUTs the serialized permission directly
and then re-fetches. -/
def update (srv : Server) (k : Nat) (permission : Permission) :
    Except Err ParsedResponse × List Request :=
  let permissionName := permission.name
  let p := httpPut srv k ("api/" ++ uri ++ "/" ++ permissionName)
             (some (Body.jsonBody permission.dict))
  match p.1 with
  | Except.error e => (Except.error (Err.httpErr e.status), p.2)
  | Except.ok _ =>
    let g2 := get srv (k + 1) permissionName
    (g2.1, p.2 ++ g2.2)

/-- `ArtifactoryPermission.delete`: get first (propagating its failure),
then DELETE. -/
def delete (srv : Server) (k : Nat) (permissionName : String) :
    Except Err Unit × List Request :=
  let r := get srv k permissionName
  match r.1 with
  | Except.error e => (Except.error e, r.2)
  | Except.ok _ =>
    let d := httpDelete srv (k + 1) ("api/" ++ uri ++ "/" ++ permissionName)
    match d.1 with
    | Except.error e => (Except.error (Err.httpErr e.status), r.2 ++ d.2)
    | Except.ok _ => (Except.ok (), r.2 ++ d.2)

end ArtifactoryPermission

/-- Python's `s.lstrip("/")`: remove every leading `'/'` character. -/
def pyLstripSlash (s : String) : String :=
  String.mk (s.toList.dropWhile (fun c => c = '/'))

/-- Python's `s.split("/")[-1]`: the last `/`-separated component. -/
def lastPathComponent (s : String) : String :=
  (s.splitOn "/").getLastD ""

namespace ArtifactoryArtifact

/-- `ArtifactoryArtifact.info`: normalize the path with `lstrip("/")`,
read `api/storage/{path}`; convert 404 (and only 404) into
`ArtifactNotFoundException`, anything else into `ArtifactoryException`. -/
def info (srv : Server) (k : Nat) (artifactPath : String) :
    Except Err ParsedResponse × List Request :=
  let path := pyLstripSlash artifactPath
  let r := httpGet srv k ("api/storage/" ++ path) []
  (match r.1 with
   | Except.ok resp => Except.ok ⟨resp.body⟩
   | Except.error e =>
     if e.status = 404 then
       Except.error
         (Err.artifactNotFound ("Artifact " ++ path ++ " does not exist"))
     else Except.error (Err.artifactoryEx e.status),
   r.2)

/-- `ArtifactoryArtifact.deploy`: normalize the path, PUT the local
file's bytes (`fileContents` stands for the opened file's contents — the
filesystem is external), then return `info` of the deployed path. -/
def deploy (srv : Server) (k : Nat) (fileContents : String)
    (artifactPath : String) : Except Err ParsedResponse × List Request :=
  let path := pyLstripSlash artifactPath
  let p := httpPut srv k path (some (Body.rawBody fileContents))
  match p.1 with
  | Except.error e => (Except.error (Err.httpErr e.status), p.2)
  | Except.ok _ =>
    let i := info srv (k + 1) path
    (i.1, p.2 ++ i.2)

/-- `ArtifactoryArtifact.download`: normalize the path, GET `{path}`
(streaming), write the body to the local file (external filesystem
effect, not modelled) and return the local file path. -/
def download (srv : Server) (k : Nat) (artifactPath : String)
    (localDirectoryPath : Option String) :
    Except Err String × List Request :=
  let path := pyLstripSlash artifactPath
  let localFilename := lastPathComponent path
  let localFileFullPath :=
    match localDirectoryPath with
    | some d => d ++ "/" ++ localFilename
    | none => localFilename
  let r := httpGet srv k path []
  match r.1 with
  | Except.error e => (Except.error (Err.httpErr e.status), r.2)
  | Except.ok _ => (Except.ok localFileFullPath, r.2)

/-- `ArtifactoryArtifact.properties`: normalize the path, GET
`api/storage/{path}` with the comma-joined property list as a query
parameter; convert 404 into `PropertyNotFoundException`, anything else
into `ArtifactoryException`. -/
def properties (srv : Server) (k : Nat) (artifactPath : String)
    (props : List String) : Except Err ParsedResponse × List Request :=
  let path := pyLstripSlash artifactPath
  let r := httpGet srv k ("api/storage/" ++ path)
             [("properties", String.intercalate "," props)]
  (match r.1 with
   | Except.ok resp => Except.ok ⟨resp.body⟩
   | Except.error e =>
     if e.status = 404 then
       Except.error
         (Err.propertyNotFound
           ("Properties were not found on artifact " ++ path))
     else Except.error (Err.artifactoryEx e.status),
   r.2)

/-- `ArtifactoryArtifact.stats`: normalize the path, GET
`api/storage/{path}?stats`; an `HTTPError` propagates raw. -/
def stats (srv : Server) (k : Nat) (artifactPath : String) :
    Except Err ParsedResponse × List Request :=
  let path := pyLstripSlash artifactPath
  let r := httpGet srv k ("api/storage/" ++ path ++ "?stats") []
  (match r.1 with
   | Except.ok resp => Except.ok ⟨resp.body⟩
   | Except.error e => Except.error (Err.httpErr e.status),
   r.2)

/-- `ArtifactoryArtifact.copy`: normalize both paths, POST
`api/copy/{src}?to={dst}&dry={0|1}`, then return `info` of the
destination. -/
def copy (srv : Server) (k : Nat) (artifactCurrentPath artifactNewPath : String)
    (dryrun : Bool) : Except Err ParsedResponse × List Request :=
  let src := pyLstripSlash artifactCurrentPath
  let dst := pyLstripSlash artifactNewPath
  let dry := if dryrun then "1" else "0"
  let p := httpPost srv k
             ("api/copy/" ++ src ++ "?to=" ++ dst ++ "&dry=" ++ dry) none true
  match p.1 with
  | Except.error e => (Except.error (Err.httpErr e.status), p.2)
  | Except.ok _ =>
    let i := info srv (k + 1) dst
    (i.1, p.2 ++ i.2)

/-- `ArtifactoryArtifact.move`: normalize both paths, POST
`api/move/{src}?to={dst}&dry={0|1}`, then return `info` of the
destination. -/
def move (srv : Server) (k : Nat) (artifactCurrentPath artifactNewPath : String)
    (dryrun : Bool) : Except Err ParsedResponse × List Request :=
  let src := pyLstripSlash artifactCurrentPath
  let dst := pyLstripSlash artifactNewPath
  let dry := if dryrun then "1" else "0"
  let p := httpPost srv k
             ("api/move/" ++ src ++ "?to=" ++ dst ++ "&dry=" ++ dry) none true
  match p.1 with
  | Except.error e => (Except.error (Err.httpErr e.status), p.2)
  | Except.ok _ =>
    let i := info srv (k + 1) dst
    (i.1, p.2 ++ i.2)

/-- `ArtifactoryArtifact.delete`: normalize the path, DELETE `{path}`. -/
def delete (srv : Server) (k : Nat) (artifactPath : String) :
    Except Err Unit × List Request :=
  let path := pyLstripSlash artifactPath
  let d := httpDelete srv k path
  match d.1 with
  | Except.error e => (Except.error (Err.httpErr e.status), d.2)
  | Except.ok _ => (Except.ok (), d.2)

end ArtifactoryArtifact

/-- Python truthiness of an optional string argument: `None` and the
empty string are falsy. -/
def pyTruthyStr (o : Option String) : Bool :=
  match o with
  | none => false
  | some s => !s.isEmpty

namespace ArtifactorySecurity

/-- `ArtifactorySecurity._uri`. -/
def uri : String := "security"

/-- `ArtifactorySecurity.revoke_access_token`: if neither `token` nor
`token_id` is truthy, raise `InvalidTokenDataException` before any HTTP
call; otherwise POST the chosen payload with `raise_for_status=False`
and return `response.ok`. -/
def revokeAccessToken (srv : Server) (k : Nat)
    (token tokenId : Option String) : Except Err Bool × List Request :=
  if !(pyTruthyStr token || pyTruthyStr tokenId) then
    (Except.error (Err.invalidTokenData none), [])
  else
    let payload :=
      if pyTruthyStr token then [("token", token.getD "")]
      else [("token_id", tokenId.getD "")]
    let p := httpPost srv k ("api/" ++ uri ++ "/token/revoke")
               (some (Body.formBody payload)) false
    match p.1 with
    | Except.error e => (Except.error (Err.httpErr e.status), p.2)
    | Except.ok resp => (Except.ok resp.ok, p.2)

end ArtifactorySecurity

/-- A JSON value, as passed verbatim through `json.dumps` by the query
compiler. -/
inductive JValue
  | str (s : String)
  | num (n : Int)
  | bool (b : Bool)
  | arr (xs : List JValue)
  | obj (kvs : List (String × JValue))

/-- `json.dumps` escaping of one character inside a string literal
(quote, backslash and the common control characters; other characters
pass through). -/
def jescapeChar (c : Char) : String :=
  if c = '"' then "\\\""
  else if c = '\\' then "\\\\"
  else if c = '\n' then "\\n"
  else if c = '\t' then "\\t"
  else if c = '\r' then "\\r"
  else String.mk [c]

/-- `json.dumps` rendering of a string literal's contents. -/
def jescape (s : String) : String :=
  String.join (s.toList.map jescapeChar)

mutual

/-- `json.dumps` with its default separators (`", "` between items,
`": "` after keys). -/
def jdumps : JValue → String
  | JValue.str s => "\"" ++ jescape s ++ "\""
  | JValue.num n => toString n
  | JValue.bool b => if b then "true" else "false"
  | JValue.arr xs => "[" ++ jdumpsList xs ++ "]"
  | JValue.obj kvs => "\x7b" ++ jdumpsObj kvs ++ "\x7d"

/-- Comma-joined `json.dumps` of an array's elements. -/
def jdumpsList : List JValue → String
  | [] => ""
  | [x] => jdumps x
  | x :: y :: xs => jdumps x ++ ", " ++ jdumpsList (y :: xs)

/-- Comma-joined `json.dumps` of an object's key/value pairs. -/
def jdumpsObj : List (String × JValue) → String
  | [] => ""
  | [(key, v)] => "\"" ++ jescape key ++ "\": " ++ jdumps v
  | (key, v) :: p :: xs =>
    "\"" ++ jescape key ++ "\": " ++ jdumps v ++ ", " ++ jdumpsObj (p :: xs)

end

/-- The `Aql` query object (its model class lives in the external models
module; fields and their optionality follow the spec's data model).
`domain` stands for the domain enum's value; `find` is the ordered
`find` mapping; `sort` is the ordered sort mapping, each key standing
for the sort-key enum member's `.value`; `offset` and `limit` are
optional integers.  An absent mapping and an empty mapping are
indistinguishable to the compiler (both are falsy), so both are modelled
as `[]`. -/
structure Aql where
  domain : String
  find : List (String × JValue)
  incl : List String
  sort : List (String × List String)
  offset : Option Int
  limit : Option Int

/-- `create_aql_query`: translate an `Aql` object into the AQL query
string.  Each `if` mirrors a Python truthiness test: empty mappings and
lists are falsy, and so are `None` and `0` for `offset`/`limit`.  The
`include` clause is `json.dumps` of the list with every `[` and `]`
removed (Python `str.replace` removes all occurrences). -/
def create_aql_query (a : Aql) : String :=
  let q0 := a.domain ++ ".find"
  let q1 :=
    if a.find.isEmpty then q0 ++ "()"
    else q0 ++ "(" ++ jdumps (JValue.obj a.find) ++ ")"
  let q2 :=
    if a.incl.isEmpty then q1
    else
      let formatInclude :=
        String.mk ((jdumps (JValue.arr (a.incl.map JValue.str))).toList.filter
          (fun c => !(c = '[' || c = ']')))
      q1 ++ ".include(" ++ formatInclude ++ ")"
  let q3 :=
    match a.sort with
    | [] => q2
    | (sortKey, sortVal) :: _ =>
      q2 ++ ".sort(\x7b\"" ++ sortKey ++ "\": "
         ++ jdumps (JValue.arr (sortVal.map JValue.str)) ++ "\x7d)"
  let q4 :=
    match a.offset with
    | none => q3
    | some n => if n = 0 then q3 else q3 ++ ".offset(" ++ toString n ++ ")"
  let q5 :=
    match a.limit with
    | none => q4
    | some n => if n = 0 then q4 else q4 ++ ".limit(" ++ toString n ++ ")"
  q5

/-- Whether `p` occurs as a contiguous run inside `s`. -/
def listContainsSub (p : List Char) : List Char → Bool
  | [] => p.isEmpty
  | c :: rest => p.isPrefixOf (c :: rest) || listContainsSub p rest

/-- Whether the pattern `pat` occurs as a contiguous substring of
`hay`. -/
def strContainsSub (hay pat : String) : Bool :=
  listContainsSub pat.toList hay.toList

theorem isPrefixOf_append_self (p b : List Char) :
    p.isPrefixOf (p ++ b) = true := by
  induction p with
  | nil => simp [List.isPrefixOf]
  | cons c t ih => simp [List.isPrefixOf, ih]

theorem listContainsSub_self_append (p b : List Char) :
    listContainsSub p (p ++ b) = true := by
  cases p with
  | nil =>
    cases b with
    | nil => rfl
    | cons c t => simp [listContainsSub, List.isPrefixOf]
  | cons c t =>
    simp only [List.cons_append, listContainsSub, Bool.or_eq_true]
    exact Or.inl (isPrefixOf_append_self (c :: t) b)

theorem listContainsSub_of_append (a p b : List Char) :
    listContainsSub p (a ++ p ++ b) = true := by
  induction a with
  | nil => simpa using listContainsSub_self_append p b
  | cons c t ih =>
    simp only [List.cons_append, listContainsSub, Bool.or_eq_true]
    exact Or.inr ih

theorem toList_append (a b : String) :
    (a ++ b).toList = a.toList ++ b.toList := rfl

theorem strContainsSub_of_append (a p b : String) :
    strContainsSub (a ++ p ++ b) p = true := by
  have h : (a ++ p ++ b).toList = a.toList ++ p.toList ++ b.toList := rfl
  simpa [strContainsSub, h] using
    listContainsSub_of_append a.toList p.toList b.toList

theorem strContainsSub_of_append_right (a p : String) :
    strContainsSub (a ++ p) p = true := by
  have h := strContainsSub_of_append a p ""
  simpa using h

/-- A server that answers every request with the given status and an
empty body; used to instantiate scenarios concretely. -/
def srvConst (status : Nat) : Server := fun _ _ _ => ⟨status, []⟩

/-- No request in the trace is an HTTP PUT. -/
def noPut (t : List Request) : Prop := ∀ req ∈ t, req.method ≠ Method.put

/-- No request in the trace is an HTTP DELETE. -/
def noDeleteReq (t : List Request) : Prop :=
  ∀ req ∈ t, req.method ≠ Method.delete

/-- No request in the trace is a write (HTTP PUT or POST). -/
def noWrite (t : List Request) : Prop :=
  ∀ req ∈ t, req.method ≠ Method.put ∧ req.method ≠ Method.post

end PyArtifactory

open PyArtifactory

/-- **C1.** For Users, Groups, Permissions and Repositories: when the
initial existence check of `create` succeeds, `create` fails with the
resource's AlreadyExists exception and its trace contains no PUT
request. -/
theorem C1_create_on_existing_fails_without_put :
    ∀ (srv : Server) (k : Nat),
      (∀ (u : NewUser) (r : ParsedResponse),
        (ArtifactoryUser.get srv k u.name).1 = Except.ok r →
        (ArtifactoryUser.create srv k u).1 =
          Except.error
            (Err.userAlreadyExists ("User " ++ u.name ++ " already exists")) ∧
        noPut (ArtifactoryUser.create srv k u).2) ∧
      (∀ (g : Group) (r : ParsedResponse),
        (ArtifactoryGroup.get srv k g.name).1 = Except.ok r →
        (ArtifactoryGroup.create srv k g).1 =
          Except.error
            (Err.groupAlreadyExists ("Group " ++ g.name ++ " already exists")) ∧
        noPut (ArtifactoryGroup.create srv k g).2) ∧
      (∀ (p : Permission) (r : ParsedResponse),
        (ArtifactoryPermission.get srv k p.name).1 = Except.ok r →
        (ArtifactoryPermission.create srv k p).1 =
          Except.error
            (Err.permissionAlreadyExists
              ("Permission " ++ p.name ++ " already exists")) ∧
        noPut (ArtifactoryPermission.create srv k p).2) ∧
      (∀ (rp : Repository) (r : ParsedResponse),
        (ArtifactoryRepository.getRepo srv k rp.key).1 = Except.ok r →
        (ArtifactoryRepository.createRepo srv k rp).1 =
          Except.error
            (Err.repositoryAlreadyExists
              ("Repository " ++ rp.key ++ " already exists")) ∧
        noPut (ArtifactoryRepository.createRepo srv k rp).2) := by
  intro srv k
  refine ⟨?_, ?_, ?_, ?_⟩
  · intro u r h
    simp only [ArtifactoryUser.create, h]
    refine ⟨trivial, ?_⟩
    simp [ArtifactoryUser.get, httpGet, genericHttpMethodRequest, noPut]
  · intro g r h
    simp only [ArtifactoryGroup.create, h]
    refine ⟨trivial, ?_⟩
    simp [ArtifactoryGroup.get, httpGet, genericHttpMethodRequest, noPut]
  · intro p r h
    simp only [ArtifactoryPermission.create, h]
    refine ⟨trivial, ?_⟩
    simp [ArtifactoryPermission.get, httpGet, genericHttpMethodRequest, noPut]
  · intro rp r h
    simp only [ArtifactoryRepository.createRepo, h]
    refine ⟨trivial, ?_⟩
    simp [ArtifactoryRepository.getRepo, httpGet, genericHttpMethodRequest,
      noPut]

/-- Witness for C1: against a server that always answers 200, the
existence checks succeed, so every `create` fails with AlreadyExists and
issues no PUT. -/
theorem C1_create_on_existing_fails_without_put_witness :
    (ArtifactoryUser.create (srvConst 200) 0 ⟨"u", "pw", []⟩).1 =
      Except.error (Err.userAlreadyExists "User u already exists") ∧
    (ArtifactoryGroup.create (srvConst 200) 0 ⟨"g", []⟩).1 =
      Except.error (Err.groupAlreadyExists "Group g already exists") ∧
    (ArtifactoryPermission.create (srvConst 200) 0 ⟨"p", []⟩).1 =
      Except.error (Err.permissionAlreadyExists "Permission p already exists") ∧
    (ArtifactoryRepository.createRepo (srvConst 200) 0 ⟨"r", []⟩).1 =
      Except.error (Err.repositoryAlreadyExists "Repository r already exists") := by
  have h := C1_create_on_existing_fails_without_put (srvConst 200) 0
  exact ⟨(h.1 ⟨"u", "pw", []⟩ ⟨[]⟩ rfl).1,
         (h.2.1 ⟨"g", []⟩ ⟨[]⟩ rfl).1,
         (h.2.2.1 ⟨"p", []⟩ ⟨[]⟩ rfl).1,
         (h.2.2.2 ⟨"r", []⟩ ⟨[]⟩ rfl).1⟩

/-- **C2.** For Users, Groups and Permissions: when the initial
`get(id)` of `delete(id)` fails with the resource's NotFound exception,
`delete` propagates that exception and its trace contains no DELETE
request. -/
theorem C2_delete_on_absent_propagates_without_delete :
    ∀ (srv : Server) (k : Nat) (name msg : String),
      ((ArtifactoryUser.get srv k name).1 =
          Except.error (Err.userNotFound msg) →
        (ArtifactoryUser.delete srv k name).1 =
          Except.error (Err.userNotFound msg) ∧
        noDeleteReq (ArtifactoryUser.delete srv k name).2) ∧
      ((ArtifactoryGroup.get srv k name).1 =
          Except.error (Err.groupNotFound msg) →
        (ArtifactoryGroup.delete srv k name).1 =
          Except.error (Err.groupNotFound msg) ∧
        noDeleteReq (ArtifactoryGroup.delete srv k name).2) ∧
      ((ArtifactoryPermission.get srv k name).1 =
          Except.error (Err.permissionNotFound msg) →
        (ArtifactoryPermission.delete srv k name).1 =
          Except.error (Err.permissionNotFound msg) ∧
        noDeleteReq (ArtifactoryPermission.delete srv k name).2) := by
  intro srv k name msg
  refine ⟨?_, ?_, ?_⟩
  · intro h
    simp only [ArtifactoryUser.delete, h]
    refine ⟨trivial, ?_⟩
    simp [ArtifactoryUser.get, httpGet, genericHttpMethodRequest, noDeleteReq]
  · intro h
    simp only [ArtifactoryGroup.delete, h]
    refine ⟨trivial, ?_⟩
    simp [ArtifactoryGroup.get, httpGet, genericHttpMethodRequest, noDeleteReq]
  · intro h
    simp only [ArtifactoryPermission.delete, h]
    refine ⟨trivial, ?_⟩
    simp [ArtifactoryPermission.get, httpGet, genericHttpMethodRequest,
      noDeleteReq]

/-- Witness for C2: against a server that always answers 404, every
`get` fails with NotFound, so every `delete` propagates it. -/
theorem C2_delete_on_absent_propagates_without_delete_witness :
    (ArtifactoryUser.delete (srvConst 404) 0 "u").1 =
      Except.error (Err.userNotFound "u does not exist") ∧
    (ArtifactoryGroup.delete (srvConst 404) 0 "g").1 =
      Except.error (Err.groupNotFound "Group g does not exist") ∧
    (ArtifactoryPermission.delete (srvConst 404) 0 "p").1 =
      Except.error (Err.permissionNotFound "Permission p does not exist") := by
  refine ⟨?_, ?_, ?_⟩
  · exact ((C2_delete_on_absent_propagates_without_delete (srvConst 404) 0 "u"
      "u does not exist").1 (by rfl)).1
  · exact ((C2_delete_on_absent_propagates_without_delete (srvConst 404) 0 "g"
      "Group g does not exist").2.1 (by rfl)).1
  · exact ((C2_delete_on_absent_propagates_without_delete (srvConst 404) 0 "p"
      "Permission p does not exist").2.2 (by rfl)).1

/-- **C3 counterexample.** `ArtifactoryPermission.update` does not call
`get` first: against a server that always answers 404 (the permission is
absent — its `get` fails with PermissionNotFound), `update` nevertheless
issues a PUT write as its very first request and fails with a raw HTTP
error rather than propagating NotFound. -/
theorem C3_counterexample_permission_update_writes_without_check :
    (ArtifactoryPermission.get (srvConst 404) 0 "p").1 =
      Except.error (Err.permissionNotFound "Permission p does not exist") ∧
    (ArtifactoryPermission.update (srvConst 404) 0 ⟨"p", []⟩).2 =
      [⟨Method.put, "api/security/permissions/p",
        some (Body.jsonBody [("name", "p")]), []⟩] ∧
    (ArtifactoryPermission.update (srvConst 404) 0 ⟨"p", []⟩).1 =
      Except.error (Err.httpErr 404) := by
  refine ⟨by rfl, by rfl, by rfl⟩

/-- **C3 amended.** For Users, Groups and Repositories, `update(record)`
first calls `get(record.id)`: when the resource is absent the NotFound
exception propagates and no write is issued, and when the existence
check succeeds an HTTP POST write is issued next and, once the writes
succeed, the result is the re-fetched canonical representation.
`ArtifactoryPermission.update`, however, performs no existence check:
its first request is already the PUT write, and when that PUT succeeds
its trace is exactly the PUT followed by the re-fetch GET, whose result
it returns. -/
theorem C3_amended_update_get_first_except_permission :
    ∀ (srv : Server) (k : Nat),
      (∀ (u : User) (msg : String),
        (ArtifactoryUser.get srv k u.name).1 =
            Except.error (Err.userNotFound msg) →
        (ArtifactoryUser.update srv k u).1 =
          Except.error (Err.userNotFound msg) ∧
        noWrite (ArtifactoryUser.update srv k u).2) ∧
      (∀ (u : User) (r : ParsedResponse),
        (ArtifactoryUser.get srv k u.name).1 = Except.ok r →
        (ArtifactoryUser.update srv k u).2.take 2 =
          [⟨Method.get, "api/security/users/" ++ u.name, none, []⟩,
           ⟨Method.post, "api/security/users/" ++ u.name,
            some (Body.jsonBody u.dict), []⟩] ∧
        (statusIsError (srv (k + 1) Method.post
            ("api/security/users/" ++ u.name)).status = false →
         statusIsError (srv (k + 2) Method.post
            ("api/security/users/" ++ u.name)).status = false →
         (ArtifactoryUser.update srv k u).1 =
           (ArtifactoryUser.get srv (k + 3) u.name).1)) ∧
      (∀ (g : Group) (msg : String),
        (ArtifactoryGroup.get srv k g.name).1 =
            Except.error (Err.groupNotFound msg) →
        (ArtifactoryGroup.update srv k g).1 =
          Except.error (Err.groupNotFound msg) ∧
        noWrite (ArtifactoryGroup.update srv k g).2) ∧
      (∀ (g : Group) (r : ParsedResponse),
        (ArtifactoryGroup.get srv k g.name).1 = Except.ok r →
        (ArtifactoryGroup.update srv k g).2.take 2 =
          [⟨Method.get, "api/security/groups/" ++ g.name, none,
            [("includeUsers", "True")]⟩,
           ⟨Method.post, "api/security/groups/" ++ g.name,
            some (Body.jsonBody g.dict), []⟩] ∧
        (statusIsError (srv (k + 1) Method.post
            ("api/security/groups/" ++ g.name)).status = false →
         (ArtifactoryGroup.update srv k g).1 =
           (ArtifactoryGroup.get srv (k + 2) g.name).1)) ∧
      (∀ (rp : Repository) (msg : String),
        (ArtifactoryRepository.getRepo srv k rp.key).1 =
            Except.error (Err.repositoryNotFound msg) →
        (ArtifactoryRepository.updateRepo srv k rp).1 =
          Except.error (Err.repositoryNotFound msg) ∧
        noWrite (ArtifactoryRepository.updateRepo srv k rp).2) ∧
      (∀ (rp : Repository) (r : ParsedResponse),
        (ArtifactoryRepository.getRepo srv k rp.key).1 = Except.ok r →
        (ArtifactoryRepository.updateRepo srv k rp).2.take 2 =
          [⟨Method.get, "api/repositories/" ++ rp.key, none, []⟩,
           ⟨Method.post, "api/repositories/" ++ rp.key,
            some (Body.jsonBody rp.dict), []⟩] ∧
        (statusIsError (srv (k + 1) Method.post
            ("api/repositories/" ++ rp.key)).status = false →
         (ArtifactoryRepository.updateRepo srv k rp).1 =
           (ArtifactoryRepository.getRepo srv (k + 2) rp.key).1)) ∧
      (∀ (p : Permission),
        (ArtifactoryPermission.update srv k p).2.take 1 =
          [⟨Method.put, "api/security/permissions/" ++ p.name,
            some (Body.jsonBody p.dict), []⟩] ∧
        (statusIsError (srv k Method.put
            ("api/security/permissions/" ++ p.name)).status = false →
         (ArtifactoryPermission.update srv k p).2 =
           [⟨Method.put, "api/security/permissions/" ++ p.name,
             some (Body.jsonBody p.dict), []⟩,
            ⟨Method.get, "api/security/permissions/" ++ p.name, none, []⟩] ∧
         (ArtifactoryPermission.update srv k p).1 =
           (ArtifactoryPermission.get srv (k + 1) p.name).1)) := by
  intro srv k
  refine ⟨?_, ?_, ?_, ?_, ?_, ?_, ?_⟩
  · intro u msg h
    simp only [ArtifactoryUser.update, h]
    refine ⟨trivial, ?_⟩
    simp [ArtifactoryUser.get, httpGet, genericHttpMethodRequest, noWrite]
  · intro u r h
    constructor
    · simp only [ArtifactoryUser.update, h]
      cases hp : (httpPost srv (k + 1) ("api/" ++ ArtifactoryUser.uri ++ "/"
          ++ u.name) (some (Body.jsonBody u.dict)) true).1 with
      | error e =>
        simp [hp, ArtifactoryUser.get, ArtifactoryUser.uri, httpGet, httpPost,
          genericHttpMethodRequest]
      | ok v =>
        cases hp2 : (httpPost srv (k + 2) ("api/" ++ ArtifactoryUser.uri ++ "/"
            ++ u.name) (some (Body.jsonBody
              (u.dictExclude ["lastLoggedIn", "realm"]))) true).1 with
        | error e =>
          simp [hp, hp2, ArtifactoryUser.get, ArtifactoryUser.uri, httpGet,
            httpPost, genericHttpMethodRequest]
        | ok v2 =>
          simp [hp, hp2, ArtifactoryUser.get, ArtifactoryUser.uri, httpGet,
            httpPost, genericHttpMethodRequest]
    · intro h1 h2
      simp [ArtifactoryUser.update, h, ArtifactoryUser.uri, httpPost,
        genericHttpMethodRequest, h1, h2]
  · intro g msg h
    simp only [ArtifactoryGroup.update, h]
    refine ⟨trivial, ?_⟩
    simp [ArtifactoryGroup.get, httpGet, genericHttpMethodRequest, noWrite]
  · intro g r h
    constructor
    · simp only [ArtifactoryGroup.update, h]
      cases hp : (httpPost srv (k + 1) ("api/" ++ ArtifactoryGroup.uri ++ "/"
          ++ g.name) (some (Body.jsonBody g.dict)) true).1 with
      | error e =>
        simp [hp, ArtifactoryGroup.get, ArtifactoryGroup.uri, httpGet,
          httpPost, genericHttpMethodRequest]
      | ok v =>
        simp [hp, ArtifactoryGroup.get, ArtifactoryGroup.uri, httpGet,
          httpPost, genericHttpMethodRequest]
    · intro h1
      simp [ArtifactoryGroup.update, h, ArtifactoryGroup.uri, httpPost,
        genericHttpMethodRequest, h1]
  · intro rp msg h
    simp only [ArtifactoryRepository.updateRepo, h]
    refine ⟨trivial, ?_⟩
    simp [ArtifactoryRepository.getRepo, httpGet, genericHttpMethodRequest,
      noWrite]
  · intro rp r h
    constructor
    · simp only [ArtifactoryRepository.updateRepo, h]
      cases hp : (httpPost srv (k + 1) ("api/" ++ ArtifactoryRepository.uri
          ++ "/" ++ rp.key) (some (Body.jsonBody rp.dict)) true).1 with
      | error e =>
        simp [hp, ArtifactoryRepository.getRepo, ArtifactoryRepository.uri,
          httpGet, httpPost, genericHttpMethodRequest]
      | ok v =>
        simp [hp, ArtifactoryRepository.getRepo, ArtifactoryRepository.uri,
          httpGet, httpPost, genericHttpMethodRequest]
    · intro h1
      simp [ArtifactoryRepository.updateRepo, h, ArtifactoryRepository.uri,
        httpPost, genericHttpMethodRequest, h1]
  · intro p
    constructor
    · simp only [ArtifactoryPermission.update, ArtifactoryPermission.uri,
        httpPut, genericHttpMethodRequest]
      split
      · simp
      · simp
    · intro hs
      constructor
      · simp [ArtifactoryPermission.update, ArtifactoryPermission.uri,
          httpPut, genericHttpMethodRequest, hs, ArtifactoryPermission.get,
          httpGet]
      · simp [ArtifactoryPermission.update, ArtifactoryPermission.uri,
          httpPut, genericHttpMethodRequest, hs]

/-- Witness for the amended C3, at concrete servers: a 404 server makes
`ArtifactoryUser.update` propagate NotFound, a 200 server makes
`ArtifactoryGroup.update` issue its GET-then-POST prefix and return the
re-fetched record, and `ArtifactoryPermission.update` opens with its PUT and, the PUT having
succeeded, re-fetches: its full trace is the PUT then the GET, and it
returns the re-fetched result. -/
theorem C3_amended_update_get_first_except_permission_witness :
    (ArtifactoryUser.update (srvConst 404) 0 ⟨"u", []⟩).1 =
      Except.error (Err.userNotFound "u does not exist") ∧
    (ArtifactoryGroup.update (srvConst 200) 0 ⟨"g", []⟩).2.take 2 =
      [⟨Method.get, "api/security/groups/g", none, [("includeUsers", "True")]⟩,
       ⟨Method.post, "api/security/groups/g",
        some (Body.jsonBody [("name", "g")]), []⟩] ∧
    (ArtifactoryGroup.update (srvConst 200) 0 ⟨"g", []⟩).1 =
      (ArtifactoryGroup.get (srvConst 200) 2 "g").1 ∧
    (ArtifactoryPermission.update (srvConst 200) 0 ⟨"p", []⟩).2 =
      [⟨Method.put, "api/security/permissions/p",
        some (Body.jsonBody [("name", "p")]), []⟩,
       ⟨Method.get, "api/security/permissions/p", none, []⟩] ∧
    (ArtifactoryPermission.update (srvConst 200) 0 ⟨"p", []⟩).1 =
      (ArtifactoryPermission.get (srvConst 200) 1 "p").1 := by
  have h404 := C3_amended_update_get_first_except_permission (srvConst 404) 0
  have h200 := C3_amended_update_get_first_except_permission (srvConst 200) 0
  refine ⟨(h404.1 ⟨"u", []⟩ "u does not exist" (by rfl)).1, ?_, ?_, ?_, ?_⟩
  · exact (h200.2.2.2.1 ⟨"g", []⟩ ⟨[]⟩ (by rfl)).1
  · exact (h200.2.2.2.1 ⟨"g", []⟩ ⟨[]⟩ (by rfl)).2 (by rfl)
  · exact ((h200.2.2.2.2.2.2 ⟨"p", []⟩).2 (by rfl)).1
  · exact ((h200.2.2.2.2.2.2 ⟨"p", []⟩).2 (by rfl)).2

/-- **C4 counterexample.** `ArtifactoryArtifact.info` does not convert
HTTP 400 into NotFound: against a server that always answers 400, it
fails with the generic `ArtifactoryException` (wrapping status 400)
instead of `ArtifactNotFoundException` carrying the path. -/
theorem C4_counterexample_info_on_400_is_generic :
    (ArtifactoryArtifact.info (srvConst 400) 0 "a/b").1 =
      Except.error (Err.artifactoryEx 400) ∧
    Err.artifactoryEx 400 ≠
      Err.artifactNotFound "Artifact a/b does not exist" := by
  exact ⟨by rfl, by decide⟩

/-- **C4 amended.** For the `get` of Users, Groups, Permissions and
Repositories, an HTTP error with status 404 or 400 is converted into the
resource's NotFound exception carrying the id, and any other 4xx/5xx is
re-raised as the generic `ArtifactoryException` wrapping the original
HTTP error's status.  For `ArtifactoryArtifact.info` only status 404 is
converted into `ArtifactNotFoundException` carrying the path; every
other 4xx/5xx — including 400 — becomes the generic exception. -/
theorem C4_amended_get_error_translation :
    ∀ (srv : Server) (k : Nat) (name : String),
      (((srv k Method.get ("api/security/users/" ++ name)).status = 404 ∨
        (srv k Method.get ("api/security/users/" ++ name)).status = 400) →
        (ArtifactoryUser.get srv k name).1 =
          Except.error (Err.userNotFound (name ++ " does not exist"))) ∧
      (statusIsError (srv k Method.get
          ("api/security/users/" ++ name)).status = true →
        (srv k Method.get ("api/security/users/" ++ name)).status ≠ 404 →
        (srv k Method.get ("api/security/users/" ++ name)).status ≠ 400 →
        (ArtifactoryUser.get srv k name).1 =
          Except.error (Err.artifactoryEx
            (srv k Method.get ("api/security/users/" ++ name)).status)) ∧
      (((srv k Method.get ("api/security/groups/" ++ name)).status = 404 ∨
        (srv k Method.get ("api/security/groups/" ++ name)).status = 400) →
        (ArtifactoryGroup.get srv k name).1 =
          Except.error
            (Err.groupNotFound ("Group " ++ name ++ " does not exist"))) ∧
      (statusIsError (srv k Method.get
          ("api/security/groups/" ++ name)).status = true →
        (srv k Method.get ("api/security/groups/" ++ name)).status ≠ 404 →
        (srv k Method.get ("api/security/groups/" ++ name)).status ≠ 400 →
        (ArtifactoryGroup.get srv k name).1 =
          Except.error (Err.artifactoryEx
            (srv k Method.get ("api/security/groups/" ++ name)).status)) ∧
      (((srv k Method.get
            ("api/security/permissions/" ++ name)).status = 404 ∨
        (srv k Method.get
            ("api/security/permissions/" ++ name)).status = 400) →
        (ArtifactoryPermission.get srv k name).1 =
          Except.error (Err.permissionNotFound
            ("Permission " ++ name ++ " does not exist"))) ∧
      (statusIsError (srv k Method.get
          ("api/security/permissions/" ++ name)).status = true →
        (srv k Method.get ("api/security/permissions/" ++ name)).status ≠ 404 →
        (srv k Method.get ("api/security/permissions/" ++ name)).status ≠ 400 →
        (ArtifactoryPermission.get srv k name).1 =
          Except.error (Err.artifactoryEx
            (srv k Method.get
              ("api/security/permissions/" ++ name)).status)) ∧
      (((srv k Method.get ("api/repositories/" ++ name)).status = 404 ∨
        (srv k Method.get ("api/repositories/" ++ name)).status = 400) →
        (ArtifactoryRepository.getRepo srv k name).1 =
          Except.error (Err.repositoryNotFound
            (" Repository " ++ name ++ " does not exist"))) ∧
      (statusIsError (srv k Method.get
          ("api/repositories/" ++ name)).status = true →
        (srv k Method.get ("api/repositories/" ++ name)).status ≠ 404 →
        (srv k Method.get ("api/repositories/" ++ name)).status ≠ 400 →
        (ArtifactoryRepository.getRepo srv k name).1 =
          Except.error (Err.artifactoryEx
            (srv k Method.get ("api/repositories/" ++ name)).status)) ∧
      ((srv k Method.get
          ("api/storage/" ++ pyLstripSlash name)).status = 404 →
        (ArtifactoryArtifact.info srv k name).1 =
          Except.error (Err.artifactNotFound
            ("Artifact " ++ pyLstripSlash name ++ " does not exist"))) ∧
      (statusIsError (srv k Method.get
          ("api/storage/" ++ pyLstripSlash name)).status = true →
        (srv k Method.get ("api/storage/" ++ pyLstripSlash name)).status ≠ 404 →
        (ArtifactoryArtifact.info srv k name).1 =
          Except.error (Err.artifactoryEx
            (srv k Method.get
              ("api/storage/" ++ pyLstripSlash name)).status)) := by
  intro srv k name
  refine ⟨?_, ?_, ?_, ?_, ?_, ?_, ?_, ?_, ?_, ?_⟩
  · rintro (h | h) <;>
      simp [ArtifactoryUser.get, ArtifactoryUser.uri, httpGet,
        genericHttpMethodRequest, h, statusIsError]
  · intro h1 h2 h3
    simp [ArtifactoryUser.get, ArtifactoryUser.uri, httpGet,
      genericHttpMethodRequest, h1, h2, h3]
  · rintro (h | h) <;>
      simp [ArtifactoryGroup.get, ArtifactoryGroup.uri, httpGet,
        genericHttpMethodRequest, h, statusIsError]
  · intro h1 h2 h3
    simp [ArtifactoryGroup.get, ArtifactoryGroup.uri, httpGet,
      genericHttpMethodRequest, h1, h2, h3]
  · rintro (h | h) <;>
      simp [ArtifactoryPermission.get, ArtifactoryPermission.uri, httpGet,
        genericHttpMethodRequest, h, statusIsError]
  · intro h1 h2 h3
    simp [ArtifactoryPermission.get, ArtifactoryPermission.uri, httpGet,
      genericHttpMethodRequest, h1, h2, h3]
  · rintro (h | h) <;>
      simp [ArtifactoryRepository.getRepo, ArtifactoryRepository.uri, httpGet,
        genericHttpMethodRequest, h, statusIsError]
  · intro h1 h2 h3
    simp [ArtifactoryRepository.getRepo, ArtifactoryRepository.uri, httpGet,
      genericHttpMethodRequest, h1, h2, h3]
  · intro h
    simp [ArtifactoryArtifact.info, httpGet, genericHttpMethodRequest, h,
      statusIsError]
  · intro h1 h2
    simp [ArtifactoryArtifact.info, httpGet, genericHttpMethodRequest, h1, h2]

/-- Witness for the amended C4: a 400 server sends the four resource
`get`s to NotFound but `info` to the generic exception, and a 500 server
sends `ArtifactoryUser.get` to the generic exception. -/
theorem C4_amended_get_error_translation_witness :
    (ArtifactoryUser.get (srvConst 400) 0 "u").1 =
      Except.error (Err.userNotFound "u does not exist") ∧
    (ArtifactoryGroup.get (srvConst 400) 0 "g").1 =
      Except.error (Err.groupNotFound "Group g does not exist") ∧
    (ArtifactoryPermission.get (srvConst 400) 0 "p").1 =
      Except.error (Err.permissionNotFound "Permission p does not exist") ∧
    (ArtifactoryRepository.getRepo (srvConst 400) 0 "r").1 =
      Except.error (Err.repositoryNotFound " Repository r does not exist") ∧
    (ArtifactoryArtifact.info (srvConst 404) 0 "a/b").1 =
      Except.error (Err.artifactNotFound "Artifact a/b does not exist") ∧
    (ArtifactoryArtifact.info (srvConst 400) 0 "a/b").1 =
      Except.error (Err.artifactoryEx 400) ∧
    (ArtifactoryUser.get (srvConst 500) 0 "u").1 =
      Except.error (Err.artifactoryEx 500) := by
  have h400 := C4_amended_get_error_translation (srvConst 400) 0
  have h404 := C4_amended_get_error_translation (srvConst 404) 0
  have h500 := C4_amended_get_error_translation (srvConst 500) 0
  refine ⟨(h400 "u").1 (Or.inr rfl), (h400 "g").2.2.1 (Or.inr rfl),
    (h400 "p").2.2.2.2.1 (Or.inr rfl),
    (h400 "r").2.2.2.2.2.2.1 (Or.inr rfl),
    (h404 "a/b").2.2.2.2.2.2.2.2.1 rfl,
    (h400 "a/b").2.2.2.2.2.2.2.2.2 (by decide) (by decide),
    (h500 "u").2.1 (by decide) (by decide) (by decide)⟩

/-- A pattern occurs in itself. -/
theorem listContainsSub_refl (p : List Char) : listContainsSub p p = true := by
  simpa using listContainsSub_self_append p []

/-- Occurrence is preserved by prepending. -/
theorem listContainsSub_chain (x : List Char) {p rest : List Char}
    (h : listContainsSub p rest = true) :
    listContainsSub p (x ++ rest) = true := by
  induction x with
  | nil => simpa using h
  | cons c t ih =>
    simp only [List.cons_append, listContainsSub, Bool.or_eq_true]
    exact Or.inr ih

/-- A three-factor pattern occurs at the head of a string that extends
its last factor. -/
theorem listContainsSub_head3 (p1 p2 p3 y : List Char) :
    listContainsSub (p1 ++ (p2 ++ p3)) (p1 ++ (p2 ++ (p3 ++ y))) = true := by
  simpa [List.append_assoc] using
    listContainsSub_self_append (p1 ++ (p2 ++ p3)) y

/-- A five-factor pattern occurs at the head of a string that extends
its last factor. -/
theorem listContainsSub_head5 (p1 p2 p3 p4 p5 y : List Char) :
    listContainsSub (p1 ++ (p2 ++ (p3 ++ (p4 ++ p5))))
      (p1 ++ (p2 ++ (p3 ++ (p4 ++ (p5 ++ y))))) = true := by
  simpa [List.append_assoc] using
    listContainsSub_self_append (p1 ++ (p2 ++ (p3 ++ (p4 ++ p5)))) y

/-- **C5.** The query compiler is a pure function, and on the query
object with domain `items`, find mapping `{"name": "a"}` and limit `5`
(include, sort, offset absent) it returns exactly
`items.find({"name": "a"}).limit(5)`, with no `.include`, `.sort` or
`.offset` fragment. -/
theorem C5_aql_query_exact_output :
    create_aql_query
        ⟨"items", [("name", JValue.str "a")], [], [], none, some 5⟩ =
      "items.find(\x7b\"name\": \"a\"\x7d).limit(5)" ∧
    strContainsSub
        (create_aql_query
          ⟨"items", [("name", JValue.str "a")], [], [], none, some 5⟩)
        ".include" = false ∧
    strContainsSub
        (create_aql_query
          ⟨"items", [("name", JValue.str "a")], [], [], none, some 5⟩)
        ".sort" = false ∧
    strContainsSub
        (create_aql_query
          ⟨"items", [("name", JValue.str "a")], [], [], none, some 5⟩)
        ".offset" = false := by
  refine ⟨by rfl, by decide, by decide, by decide⟩

/-- **C6 counterexample.** `offset`/`limit` are tested for Python
truthiness, so the value 0 — although set and non-negative — produces no
fragment at all: the claim fails at `offset = limit = 0`. -/
theorem C6_counterexample_zero_offset_limit_dropped :
    create_aql_query
        ⟨"items", [("name", JValue.str "a")], [], [], some 0, some 0⟩ =
      "items.find(\x7b\"name\": \"a\"\x7d)" ∧
    strContainsSub
        (create_aql_query
          ⟨"items", [("name", JValue.str "a")], [], [], some 0, some 0⟩)
        ".offset(0)" = false ∧
    strContainsSub
        (create_aql_query
          ⟨"items", [("name", JValue.str "a")], [], [], some 0, some 0⟩)
        ".limit(0)" = false := by
  refine ⟨by rfl, by decide, by decide⟩

/-- **C6 amended.** For every query object whose `offset` is set to a
nonzero integer `n`, the compiled query contains the fragment
`.offset(n)`, and likewise `.limit(n)` for `limit`; a value of 0 is
treated as unset (Python truthiness) and contributes no fragment. -/
theorem C6_amended_offset_limit_fragments :
    ∀ (a : Aql) (n : Int),
      (a.offset = some n → n ≠ 0 →
        strContainsSub (create_aql_query a)
          (".offset(" ++ toString n ++ ")") = true) ∧
      (a.limit = some n → n ≠ 0 →
        strContainsSub (create_aql_query a)
          (".limit(" ++ toString n ++ ")") = true) := by
  intro a n
  constructor
  · intro ho hn
    cases hl : a.limit with
    | none =>
      simp only [create_aql_query, ho, hl]
      rw [if_neg hn]
      simp only [strContainsSub, toList_append, List.append_assoc]
      exact listContainsSub_chain _ (listContainsSub_refl _)
    | some m =>
      by_cases hm : m = 0
      · simp only [create_aql_query, ho, hl]
        rw [if_neg hn, if_pos hm]
        simp only [strContainsSub, toList_append, List.append_assoc]
        exact listContainsSub_chain _ (listContainsSub_refl _)
      · simp only [create_aql_query, ho, hl]
        rw [if_neg hn, if_neg hm]
        simp only [strContainsSub, toList_append, List.append_assoc]
        exact listContainsSub_chain _ (listContainsSub_head3 _ _ _ _)
  · intro hl hn
    cases ho : a.offset with
    | none =>
      simp only [create_aql_query, ho, hl]
      rw [if_neg hn]
      simp only [strContainsSub, toList_append, List.append_assoc]
      exact listContainsSub_chain _ (listContainsSub_refl _)
    | some m =>
      by_cases hm : m = 0
      · simp only [create_aql_query, ho, hl]
        rw [if_pos hm, if_neg hn]
        simp only [strContainsSub, toList_append, List.append_assoc]
        exact listContainsSub_chain _ (listContainsSub_refl _)
      · simp only [create_aql_query, ho, hl]
        rw [if_neg hm, if_neg hn]
        simp only [strContainsSub, toList_append, List.append_assoc]
        exact listContainsSub_chain _
          (listContainsSub_chain _ (listContainsSub_chain _
            (listContainsSub_chain _ (listContainsSub_refl _))))

/-- Witness for the amended C6: with offset 3 and limit 7 both
fragments appear. -/
theorem C6_amended_offset_limit_fragments_witness :
    strContainsSub
        (create_aql_query ⟨"items", [], [], [], some 3, some 7⟩)
        ".offset(3)" = true ∧
    strContainsSub
        (create_aql_query ⟨"items", [], [], [], some 3, some 7⟩)
        ".limit(7)" = true := by
  have h := C6_amended_offset_limit_fragments
    ⟨"items", [], [], [], some 3, some 7⟩
  refine ⟨?_, ?_⟩
  · have h3 := (h 3).1 rfl (by decide)
    simpa using h3
  · have h7 := (h 7).2 rfl (by decide)
    simpa using h7

/-- **C7.** The compiler honors only the first key of a non-empty sort
mapping, appending the single fragment `.sort({"<key>": <json list>})`;
for `{"created": ["desc"]}` the output contains exactly
`.sort({"created": ["desc"]})`, and keys beyond the first leave no
trace even when present. -/
theorem C7_sort_first_key_wins :
    (∀ (a : Aql) (key : String) (vs : List String)
        (rest : List (String × List String)),
      a.sort = (key, vs) :: rest →
      strContainsSub (create_aql_query a)
        (".sort(\x7b\"" ++ key ++ "\": "
          ++ jdumps (JValue.arr (vs.map JValue.str)) ++ "\x7d)") = true) ∧
    create_aql_query
        ⟨"items", [], [],
         [("created", ["desc"]), ("modified", ["asc"])], none, none⟩ =
      "items.find().sort(\x7b\"created\": [\"desc\"]\x7d)" ∧
    strContainsSub
        (create_aql_query
          ⟨"items", [], [],
           [("created", ["desc"]), ("modified", ["asc"])], none, none⟩)
        ".sort(\x7b\"created\": [\"desc\"]\x7d)" = true ∧
    strContainsSub
        (create_aql_query
          ⟨"items", [], [],
           [("created", ["desc"]), ("modified", ["asc"])], none, none⟩)
        "modified" = false := by
  refine ⟨?_, by rfl, by decide, by decide⟩
  intro a key vs rest hs
  cases ho : a.offset with
  | none =>
    cases hl : a.limit with
    | none =>
      simp only [create_aql_query, hs, ho, hl]
      simp only [strContainsSub, toList_append, List.append_assoc]
      exact listContainsSub_chain _ (listContainsSub_refl _)
    | some m =>
      by_cases hm : m = 0
      · simp only [create_aql_query, hs, ho, hl]
        rw [if_pos hm]
        simp only [strContainsSub, toList_append, List.append_assoc]
        exact listContainsSub_chain _ (listContainsSub_refl _)
      · simp only [create_aql_query, hs, ho, hl]
        rw [if_neg hm]
        simp only [strContainsSub, toList_append, List.append_assoc]
        exact listContainsSub_chain _ (listContainsSub_head5 _ _ _ _ _ _)
  | some n =>
    by_cases hn : n = 0
    · cases hl : a.limit with
      | none =>
        simp only [create_aql_query, hs, ho, hl]
        rw [if_pos hn]
        simp only [strContainsSub, toList_append, List.append_assoc]
        exact listContainsSub_chain _ (listContainsSub_refl _)
      | some m =>
        by_cases hm : m = 0
        · simp only [create_aql_query, hs, ho, hl]
          rw [if_pos hn, if_pos hm]
          simp only [strContainsSub, toList_append, List.append_assoc]
          exact listContainsSub_chain _ (listContainsSub_refl _)
        · simp only [create_aql_query, hs, ho, hl]
          rw [if_pos hn, if_neg hm]
          simp only [strContainsSub, toList_append, List.append_assoc]
          exact listContainsSub_chain _ (listContainsSub_head5 _ _ _ _ _ _)
    · cases hl : a.limit with
      | none =>
        simp only [create_aql_query, hs, ho, hl]
        rw [if_neg hn]
        simp only [strContainsSub, toList_append, List.append_assoc]
        exact listContainsSub_chain _ (listContainsSub_head5 _ _ _ _ _ _)
      | some m =>
        by_cases hm : m = 0
        · simp only [create_aql_query, hs, ho, hl]
          rw [if_neg hn, if_pos hm]
          simp only [strContainsSub, toList_append, List.append_assoc]
          exact listContainsSub_chain _ (listContainsSub_head5 _ _ _ _ _ _)
        · simp only [create_aql_query, hs, ho, hl]
          rw [if_neg hn, if_neg hm]
          simp only [strContainsSub, toList_append, List.append_assoc]
          exact listContainsSub_chain _ (listContainsSub_head5 _ _ _ _ _ _)

/-- Witness for C7: the single-key sort mapping `{"created": ["desc"]}`
yields an output containing `.sort({"created": ["desc"]})`. -/
theorem C7_sort_first_key_wins_witness :
    strContainsSub
        (create_aql_query ⟨"items", [], [], [("created", ["desc"])], none,
          none⟩)
        ".sort(\x7b\"created\": [\"desc\"]\x7d)" = true := by
  have h := C7_sort_first_key_wins.1
    ⟨"items", [], [], [("created", ["desc"])], none, none⟩
    "created" ["desc"] [] rfl
  simpa using h

/-- **C8 counterexample.** Path normalization uses Python
`lstrip("/")`, which removes every leading slash, not exactly one: for
the input `//a/b` the issued route is `api/storage/a/b`, not the
`api/storage//a/b` that stripping a single slash would produce. -/
theorem C8_counterexample_all_leading_slashes_stripped :
    pyLstripSlash "//a/b" = "a/b" ∧
    "a/b" ≠ "/a/b" ∧
    (ArtifactoryArtifact.info (srvConst 200) 0 "//a/b").2 =
      [⟨Method.get, "api/storage/a/b", none, []⟩] ∧
    "api/storage/a/b" ≠ "api/storage/" ++ "/a/b" := by
  refine ⟨by rfl, by decide, by rfl, by decide⟩

/-- **C8 amended.** Every artifact operation (info, deploy, download,
properties, stats, copy, move, delete) normalizes its input path(s) by
stripping all leading slash characters before building the request
route (so `//a/b` is normalized to `a/b`, not `/a/b`). -/
theorem C8_amended_artifact_paths_lstripped :
    ∀ (srv : Server) (k : Nat) (p q fc : String) (props : List String)
      (dr : Bool) (ldir : Option String),
      (ArtifactoryArtifact.info srv k p).2 =
        [⟨Method.get, "api/storage/" ++ pyLstripSlash p, none, []⟩] ∧
      (ArtifactoryArtifact.deploy srv k fc p).2.take 1 =
        [⟨Method.put, pyLstripSlash p, some (Body.rawBody fc), []⟩] ∧
      (ArtifactoryArtifact.download srv k p ldir).2 =
        [⟨Method.get, pyLstripSlash p, none, []⟩] ∧
      (ArtifactoryArtifact.properties srv k p props).2 =
        [⟨Method.get, "api/storage/" ++ pyLstripSlash p, none,
          [("properties", String.intercalate "," props)]⟩] ∧
      (ArtifactoryArtifact.stats srv k p).2 =
        [⟨Method.get, "api/storage/" ++ pyLstripSlash p ++ "?stats", none,
          []⟩] ∧
      (ArtifactoryArtifact.copy srv k p q dr).2.take 1 =
        [⟨Method.post,
          "api/copy/" ++ pyLstripSlash p ++ "?to=" ++ pyLstripSlash q
            ++ "&dry=" ++ (if dr then "1" else "0"), none, []⟩] ∧
      (ArtifactoryArtifact.move srv k p q dr).2.take 1 =
        [⟨Method.post,
          "api/move/" ++ pyLstripSlash p ++ "?to=" ++ pyLstripSlash q
            ++ "&dry=" ++ (if dr then "1" else "0"), none, []⟩] ∧
      (ArtifactoryArtifact.delete srv k p).2 =
        [⟨Method.delete, pyLstripSlash p, none, []⟩] := by
  intro srv k p q fc props dr ldir
  refine ⟨rfl, ?_, ?_, rfl, rfl, ?_, ?_, ?_⟩
  · simp only [ArtifactoryArtifact.deploy, httpPut, genericHttpMethodRequest]
    split
    · simp
    · simp
  · simp only [ArtifactoryArtifact.download, httpGet,
      genericHttpMethodRequest]
    split
    · simp
    · simp
  · simp only [ArtifactoryArtifact.copy, httpPost, genericHttpMethodRequest]
    split
    · simp
    · simp
  · simp only [ArtifactoryArtifact.move, httpPost, genericHttpMethodRequest]
    split
    · simp
    · simp
  · simp only [ArtifactoryArtifact.delete, httpDelete,
      genericHttpMethodRequest]
    split
    · simp
    · simp

/-- Witness for the amended C8: at the concrete double-slash path the
normalized routes appear in the traces. -/
theorem C8_amended_artifact_paths_lstripped_witness :
    (ArtifactoryArtifact.info (srvConst 200) 0 "//a/b").2 =
      [⟨Method.get, "api/storage/a/b", none, []⟩] ∧
    (ArtifactoryArtifact.delete (srvConst 200) 0 "//a/b").2 =
      [⟨Method.delete, "a/b", none, []⟩] := by
  have h := C8_amended_artifact_paths_lstripped (srvConst 200) 0 "//a/b"
    "c" "x" [] false none
  exact ⟨by simpa using h.1, by simpa using h.2.2.2.2.2.2.2⟩

/-- **C9.** `revoke_access_token` with neither `token` nor `token_id`
raises `InvalidTokenDataException` before issuing any HTTP request; when
at least one of the two is supplied (a non-empty value — Python
truthiness), it never raises on a non-2xx outcome but returns the
boolean `response.ok`: `True` exactly when the status indicates
success, and it issues exactly one POST. -/
theorem C9_revoke_access_token_validation_and_bool :
    ∀ (srv : Server) (k : Nat),
      ((ArtifactorySecurity.revokeAccessToken srv k none none).1 =
          Except.error (Err.invalidTokenData none) ∧
        (ArtifactorySecurity.revokeAccessToken srv k none none).2 = []) ∧
      (∀ (token tokenId : Option String),
        (pyTruthyStr token || pyTruthyStr tokenId) = true →
        (ArtifactorySecurity.revokeAccessToken srv k token tokenId).1 =
          Except.ok (srv k Method.post "api/security/token/revoke").ok ∧
        (ArtifactorySecurity.revokeAccessToken srv k token tokenId).2 =
          [⟨Method.post, "api/security/token/revoke",
            some (Body.formBody
              (if pyTruthyStr token then [("token", token.getD "")]
               else [("token_id", tokenId.getD "")])), []⟩]) := by
  intro srv k
  refine ⟨⟨rfl, rfl⟩, ?_⟩
  intro token tokenId h
  constructor
  · simp [ArtifactorySecurity.revokeAccessToken, ArtifactorySecurity.uri, h,
      httpPost, genericHttpMethodRequest, Response.ok]
  · simp [ArtifactorySecurity.revokeAccessToken, ArtifactorySecurity.uri, h,
      httpPost, genericHttpMethodRequest]

/-- Witness for C9: with a token supplied, a 200 server yields `ok true`
and a 500 server yields `ok false` — no exception either way. -/
theorem C9_revoke_access_token_validation_and_bool_witness :
    (ArtifactorySecurity.revokeAccessToken (srvConst 200) 0 (some "t")
        none).1 = Except.ok true ∧
    (ArtifactorySecurity.revokeAccessToken (srvConst 500) 0 (some "t")
        none).1 = Except.ok false := by
  have h200 := (C9_revoke_access_token_validation_and_bool (srvConst 200)
    0).2 (some "t") none (by decide)
  have h500 := (C9_revoke_access_token_validation_and_bool (srvConst 500)
    0).2 (some "t") none (by decide)
  exact ⟨by simpa using h200.1, by simpa using h500.1⟩

/-- **C10.** When `ArtifactoryUser.update` succeeds, its trace is
exactly: the existence-check GET, a POST of the full serialized record,
a second POST of the record serialized without `lastLoggedIn` and
`realm`, and the final re-fetch GET — i.e. exactly two POST writes to
the user's endpoint before the final re-fetch. -/
theorem C10_user_update_issues_two_posts :
    ∀ (srv : Server) (k : Nat) (u : User) (r : ParsedResponse),
      (ArtifactoryUser.update srv k u).1 = Except.ok r →
      (ArtifactoryUser.update srv k u).2 =
        [⟨Method.get, "api/security/users/" ++ u.name, none, []⟩,
         ⟨Method.post, "api/security/users/" ++ u.name,
          some (Body.jsonBody u.dict), []⟩,
         ⟨Method.post, "api/security/users/" ++ u.name,
          some (Body.jsonBody (u.dictExclude ["lastLoggedIn", "realm"])),
          []⟩,
         ⟨Method.get, "api/security/users/" ++ u.name, none, []⟩] := by
  intro srv k u r h
  cases hg : (ArtifactoryUser.get srv k u.name).1 with
  | error e =>
    simp only [ArtifactoryUser.update, hg] at h
    simp at h
  | ok v =>
    simp only [ArtifactoryUser.update, hg] at h ⊢
    cases hp1 : (httpPost srv (k + 1) ("api/" ++ ArtifactoryUser.uri ++ "/"
        ++ u.name) (some (Body.jsonBody u.dict)) true).1 with
    | error e =>
      simp only [hp1] at h
      simp at h
    | ok v1 =>
      simp only [hp1] at h ⊢
      cases hp2 : (httpPost srv (k + 2) ("api/" ++ ArtifactoryUser.uri ++ "/"
          ++ u.name) (some (Body.jsonBody
            (u.dictExclude ["lastLoggedIn", "realm"]))) true).1 with
      | error e =>
        simp only [hp2] at h
        simp at h
      | ok v2 =>
        simp only [hp2]
        simp [ArtifactoryUser.get, ArtifactoryUser.uri, httpGet, httpPost,
          genericHttpMethodRequest]

/-- Witness for C10: against a 200 server the update succeeds and the
four-request trace is observed. -/
theorem C10_user_update_issues_two_posts_witness :
    (ArtifactoryUser.update (srvConst 200) 0
        ⟨"u", [("realm", "ldap")]⟩).2 =
      [⟨Method.get, "api/security/users/u", none, []⟩,
       ⟨Method.post, "api/security/users/u",
        some (Body.jsonBody [("name", "u"), ("realm", "ldap")]), []⟩,
       ⟨Method.post, "api/security/users/u",
        some (Body.jsonBody [("name", "u")]), []⟩,
       ⟨Method.get, "api/security/users/u", none, []⟩] := by
  have h := C10_user_update_issues_two_posts (srvConst 200) 0
    ⟨"u", [("realm", "ldap")]⟩ ⟨[]⟩ (by rfl)
  simpa [User.dict, User.dictExclude] using h
